import Mathlib

/-!
Shallow embedding of the conversation-memory and context-compaction core of
the ArkAngel sidecar (src/sidecar/src/server.ts): conversation store,
context assembler, background summarizer, streaming responder and the two
chat request handlers.  Pure data is translated directly; the JavaScript
event loop is modelled by splitting each async function at its await
points into explicit phases, and impure inputs (Date.now, the auxiliary
model reply, the streamed event sequence) are passed in as parameters.
-/

namespace ArkAngel

/-- Message roles, from the `Role` type alias in server.ts (line 96). -/
inductive Role where
  | user
  | assistant
deriving DecidableEq, Repr

/-- One conversation turn (server.ts lines 98-102).  The timestamp string is
produced impurely by `new Date().toISOString()` in the source, so it is a
parameter wherever a turn is created. -/
structure ConversationTurn where
  role : Role
  content : String
  timestamp : String
deriving DecidableEq, Repr

/-- Per-conversation state (server.ts lines 104-109).  `lastSummaryAt` holds a
`Date.now()` millisecond count. -/
structure ConversationState where
  turns : List ConversationTurn
  summary : String
  summarizing : Bool
  lastSummaryAt : Option Nat
deriving DecidableEq, Repr

/-- The state registered for a fresh conversation id (server.ts line 122). -/
def emptyConversationState : ConversationState :=
  { turns := [], summary := "", summarizing := false, lastSummaryAt := none }

/-- Association-list model of a JavaScript `Map` keyed by strings: lookup. -/
def alistGet {α : Type} : List (String × α) → String → Option α
  | [], _ => none
  | (k, v) :: rest, key => if k = key then some v else alistGet rest key

/-- Association-list model of a JavaScript `Map` keyed by strings: `set`
(update in place, or append when the key is new). -/
def alistSet {α : Type} : List (String × α) → String → α → List (String × α)
  | [], key, v => [(key, v)]
  | (k, w) :: rest, key, v =>
      if k = key then (key, v) :: rest else (k, w) :: alistSet rest key v

/-- JavaScript `a || b` for an optional string `a`: an absent or empty string
is falsy and falls through to `b`. -/
def jsOr (a : Option String) (b : String) : String :=
  match a with
  | some s => if s.isEmpty then b else s
  | none => b

/-- JavaScript `!m` for a request field that is absent or carries a string:
true exactly when the field is missing or the string is empty. -/
def jsFalsyStr (m : Option String) : Bool :=
  match m with
  | some s => s.isEmpty
  | none => true

/-- Character-list prefix test used to build the substring test below. -/
def charsPrefix : List Char → List Char → Bool
  | [], _ => true
  | _ :: _, [] => false
  | a :: as, b :: bs => a == b && charsPrefix as bs

/-- Character-list substring test. -/
def charsContains : List Char → List Char → Bool
  | pat, [] => pat.isEmpty
  | pat, c :: rest => charsPrefix pat (c :: rest) || charsContains pat rest

/-- JavaScript `s.includes(pat)`. -/
def strIncludes (s pat : String) : Bool :=
  charsContains pat.data s.data

/-- The whitespace class removed by JavaScript `String.prototype.trim`
(space, tab, line and page separators). -/
def isJsWhitespace (c : Char) : Bool :=
  c == ' ' || c == '\t' || c == '\n' || c == '\r' || c == '\x0b' || c == '\x0c'

/-- JavaScript `s.trim()`: strip leading and trailing whitespace. -/
def jsTrim (s : String) : String :=
  String.mk (((s.data.dropWhile isJsWhitespace).reverse.dropWhile isJsWhitespace).reverse)

/-- `addTurn` (server.ts lines 128-131): push a new turn; the timestamp
produced by `new Date().toISOString()` is the `ts` parameter. -/
def addTurn (s : ConversationState) (role : Role) (content : String) (ts : String) :
    ConversationState :=
  { s with turns := s.turns ++ [{ role := role, content := content, timestamp := ts }] }

/-- `formatTurn` (server.ts lines 133-136): renders one turn as
`"User: <content>"` or `"Assistant: <content>"`. -/
def formatTurn (turn : ConversationTurn) : String :=
  match turn.role with
  | Role.user => "User: " ++ turn.content
  | Role.assistant => "Assistant: " ++ turn.content

/-- `buildConversationContext` (server.ts lines 138-153): renders the summary
block (when non-empty) and the last `maxRecent` turns into the context
string injected into the prompt.  `slice(max(0, len - maxRecent))` is
`List.drop (len - maxRecent)` thanks to truncated `Nat` subtraction. -/
def buildConversationContext (state : ConversationState) (maxRecent : Nat := 6) : String :=
  let turns := state.turns
  if turns.length == 0 && state.summary.isEmpty then ""
  else
    let recent := turns.drop (turns.length - maxRecent)
    let olderCount := turns.length - recent.length
    let blocks : List String :=
      (if state.summary.isEmpty then []
       else ["Conversation Summary (compressed from " ++ toString olderCount
              ++ " earlier message" ++ (if olderCount == 1 then "" else "s")
              ++ "):\n" ++ state.summary])
      ++ (if recent.length == 0 then []
          else ["Recent Messages (up to last " ++ toString maxRecent ++ "):\n"
                 ++ String.intercalate "\n" (recent.map formatTurn)])
    String.intercalate "\n\n" blocks

/-- A piece of a structured model-message content array: either a plain
string or an object whose `text` field may be absent
(`typeof c === "string" ? c : c?.text ?? ""`). -/
inductive ContentPart where
  | str (s : String)
  | obj (text : Option String)
deriving DecidableEq, Repr

/-- Text extracted from one content part. -/
def partText : ContentPart → String
  | ContentPart.str s => s
  | ContentPart.obj t => t.getD ""

/-- Shape of the `content` field of a model message or stream chunk:
a string, an array of parts, or anything else. -/
inductive ChunkContent where
  | str (s : String)
  | arr (parts : List ContentPart)
  | other
deriving DecidableEq, Repr

/-- The auxiliary-model reply object as inspected by the summarizer
(server.ts lines 188-196): a `content` field and an optional `text` field. -/
structure AiMsg where
  content : ChunkContent
  text : Option String
deriving DecidableEq, Repr

/-- Summary-text extraction (server.ts lines 189-196).  `summaryText` starts
as the empty string; a string content is taken verbatim; an array is mapped
through `partText` and joined; otherwise `aiMsg?.text` is used only when
truthy (a present-but-empty `text` leaves the empty default). -/
def extractSummaryText (m : AiMsg) : String :=
  match m.content with
  | ChunkContent.str s => s
  | ChunkContent.arr ps => String.join (ps.map partText)
  | ChunkContent.other =>
      match m.text with
      | some t => if t.isEmpty then "" else t
      | none => ""

/-- Synchronous prefix of `maybeSummarizeAsync` (server.ts lines 155-164),
up to the await on the auxiliary model: computes `olderTurns`
(`slice(0, max(0, len - maxRecent))`, i.e. `take (len - 6)`), returns
without any mutation when there is nothing to summarize or a summarization
is already running, and otherwise sets the `summarizing` flag.  `none`
models the early return at line 161; `some` carries the mutated state and
the captured `olderTurns`. -/
def maybeSummarizeBegin (s : ConversationState) :
    Option (ConversationState × List ConversationTurn) :=
  let maxRecent := 6
  let olderTurns := s.turns.take (s.turns.length - maxRecent)
  if olderTurns.length == 0 || s.summarizing then none
  else some ({ s with summarizing := true }, olderTurns)

/-- The compaction instruction sent to the auxiliary model (server.ts lines
172-186).  `state.summary || "None"` substitutes `None` for an empty
existing summary. -/
def summarizationPrompt (s : ConversationState) (olderTurns : List ConversationTurn) : String :=
  let existing := if s.summary.isEmpty then "None" else s.summary
  let olderText := String.intercalate "\n" (olderTurns.map formatTurn)
  String.intercalate "\n"
    [ "You maintain a running, concise summary of a chat between a user and an AI assistant.",
      "Update the summary with the following earlier messages so that only the key facts, decisions, tasks, entities, and user preferences remain.",
      "Keep it objective, 180-250 words, no salutations or meta commentary.",
      "",
      "Existing summary:\n" ++ existing,
      "",
      "Earlier messages to compress:",
      olderText,
      "",
      "Return only the updated summary." ]

/-- Success continuation of `maybeSummarizeAsync` (server.ts lines 198-202
plus the `finally` at 205-208), applied to the conversation state as it
exists when the auxiliary call returns: `summaryText.trim() || summary`
keeps the old summary when the trimmed reply is empty, the turns are
truncated to the last `maxRecent` of the CURRENT list
(`slice(max(0, len - maxRecent))` = `drop (len - 6)`), `lastSummaryAt` is
set to `Date.now()` and the `finally` clears the flag. -/
def maybeSummarizeComplete (s : ConversationState) (summaryText : String) (now : Nat) :
    ConversationState :=
  let maxRecent := 6
  let newSummary := if (jsTrim summaryText).isEmpty then s.summary else jsTrim summaryText
  let recent := s.turns.drop (s.turns.length - maxRecent)
  { s with summary := newSummary, turns := recent,
           lastSummaryAt := some now, summarizing := false }

/-- Failure continuation of `maybeSummarizeAsync` (server.ts lines 203-208):
the catch only logs and the `finally` clears the flag; turns and summary are
untouched. -/
def maybeSummarizeFail (s : ConversationState) : ConversationState :=
  { s with summarizing := false }

/-- One whole successful summarization attempt: the synchronous begin phase,
then an arbitrary list of turns appended by foreground requests while the
auxiliary call is in flight, then the success continuation applied to the
state observed at completion.  `none` when the begin phase was a no-op. -/
def maybeSummarizeSuccess (s0 : ConversationState) (interleaved : List ConversationTurn)
    (aiMsg : AiMsg) (now : Nat) : Option ConversationState :=
  match maybeSummarizeBegin s0 with
  | none => none
  | some (s1, _) =>
      let s2 := { s1 with turns := s1.turns ++ interleaved }
      some (maybeSummarizeComplete s2 (extractSummaryText aiMsg) now)

/-! ### StreamingResponder (class StreamingMCPAgent, server.ts lines 310-456)

The `for await` loop over `agent.streamEvents(message)` is modelled as a fold
over a list of incoming events; `Date.now()` readings are attached to the
tool events.  A run ends either with the iterator exhausted or with it
throwing an error message, which the catch block classifies. -/

/-- A stream chunk as inspected by the token extractor (server.ts lines
388-396): a `content` field and an optional `text` field. -/
structure Chunk where
  content : ChunkContent
  text : Option String
deriving DecidableEq, Repr

/-- Token extraction from a stream chunk (server.ts lines 389-396).  Unlike
the summarizer, the final fallback checks `typeof chunk?.text === "string"`,
so a present-but-empty `text` is taken as is. -/
def extractToken (c : Chunk) : String :=
  match c.content with
  | ChunkContent.str s => s
  | ChunkContent.arr ps => String.join (ps.map partText)
  | ChunkContent.other =>
      match c.text with
      | some t => t
      | none => ""

/-- Incoming events of the underlying model/tool run, with the `Date.now()`
value observed while handling tool events.  Tool events carry both
`event.name` and `event.data?.name` since the source resolves
`event.name || event.data?.name || "unknown_tool"`. -/
inductive RunEvent where
  | onChatModelStart
  | onToolStart (name dataName : Option String) (input : Option String) (now : Int)
  | onToolEnd (name dataName : Option String) (output : Option String) (now : Int)
  | onStream (chunk : Chunk)
deriving DecidableEq, Repr

/-- Events pushed to the `streamCallback` sink.  In the source every payload
also carries a fresh ISO timestamp and a human-readable `content` label;
`toolEndEv` additionally records the `durationMs` the handler computes at
server.ts line 367 (the source logs it; the callback payload itself carries
the tool name and output). -/
inductive SEvent where
  | toolStartEv (tool : String) (input : Option String)
  | toolEndEv (tool : String) (output : Option String) (durationMs : Option Int)
  | responseStartEv
  | tokenEv (text : String)
  | oauthRequiredEv (provider : String) (content : String) (authUrl : String)
  | errorEv (content : String) (errMsg : String)
deriving DecidableEq, Repr

/-- Mutable state of one `StreamingMCPAgent.run` call: the per-tool
start-time map (`toolStartTimes : Map<string, number[]>`) and the local
accumulator variables of the loop (server.ts lines 313, 324-327). -/
structure ResponderState where
  toolStartTimes : List (String × List Int)
  finalText : String
  responseStarted : Bool
  llmStarted : Bool
  llmChars : Nat
deriving DecidableEq, Repr

/-- State at entry to `run` (fields initialised at server.ts lines 318,
324-327). -/
def initResponderState : ResponderState :=
  { toolStartTimes := [], finalText := "", responseStarted := false,
    llmStarted := false, llmChars := 0 }

/-- `event.name || event.data?.name || "unknown_tool"` (server.ts lines 340
and 362). -/
def resolveToolName (name dataName : Option String) : String :=
  jsOr name (jsOr dataName "unknown_tool")

/-- One iteration of the event loop (the `switch` at server.ts lines
330-421), returning the updated state and the events emitted to the sink.
`on_tool_start` pushes `now` onto the per-tool array; `on_tool_end` pops the
LAST entry (`Array.prototype.pop`), writes the shortened array back only
when the pop produced a value, and computes `durationMs` only when a start
was found; a stream chunk emits `response_start` before the first non-empty
token and accumulates the text. -/
def stepEvent (st : ResponderState) (ev : RunEvent) : ResponderState × List SEvent :=
  match ev with
  | RunEvent.onChatModelStart => (st, [])
  | RunEvent.onToolStart name dataName input now =>
      let toolName := resolveToolName name dataName
      let starts := (alistGet st.toolStartTimes toolName).getD []
      ({ st with toolStartTimes := alistSet st.toolStartTimes toolName (starts ++ [now]) },
       [SEvent.toolStartEv toolName input])
  | RunEvent.onToolEnd name dataName output now =>
      let toolName := resolveToolName name dataName
      let starts := (alistGet st.toolStartTimes toolName).getD []
      let startedAt := starts.getLast?
      let st' :=
        match startedAt with
        | some _ => { st with toolStartTimes := alistSet st.toolStartTimes toolName starts.dropLast }
        | none => st
      let durationMs := startedAt.map (fun t => now - t)
      (st', [SEvent.toolEndEv toolName output durationMs])
  | RunEvent.onStream chunk =>
      let token := extractToken chunk
      if token.isEmpty then (st, [])
      else
        let pre : List SEvent :=
          if st.responseStarted then [] else [SEvent.responseStartEv]
        ({ st with responseStarted := true, llmStarted := true,
                   finalText := st.finalText ++ token,
                   llmChars := st.llmChars + token.length },
         pre ++ [SEvent.tokenEv token])

/-- The event loop: fold `stepEvent` over the incoming sequence,
concatenating the emitted events. -/
def processEvents (st : ResponderState) : List RunEvent → ResponderState × List SEvent
  | [] => (st, [])
  | e :: rest =>
      let p := stepEvent st e
      let q := processEvents p.1 rest
      (q.1, p.2 ++ q.2)

/-- The OAuth-error classifier of the catch block (server.ts lines 431-434):
a substring match of the error message against three known phrases. -/
def isGoogleCalendarOAuthError (msg : String) : Bool :=
  strIncludes msg "OAuth credentials not found" ||
  strIncludes msg "Error loading OAuth keys" ||
  strIncludes msg "google-calendar-mcp"

/-- Events emitted by the catch block (server.ts lines 436-451): a
distinguished `oauth_required` event (with provider tag and
reauthorization hint URL) when the message is OAuth-classified, always
followed by the generic `error` event. -/
def errorEvents (msg : String) : List SEvent :=
  (if isGoogleCalendarOAuthError msg then
     [SEvent.oauthRequiredEv "google_calendar"
        "Google Calendar OAuth is required to use this tool."
        "https://console.cloud.google.com/apis/credentials"]
   else [])
  ++ [SEvent.errorEv "Error during processing" msg]

/-- A whole `run` call: the loop consumes `evs`; then either the iterator
finishes and the accumulated text is returned trimmed (server.ts line 428),
or the iterator throws with message `msg`, the catch block emits its events
and the error is re-raised (`throw error`, line 453), modelled as
`Except.error`. -/
def runResponder (evs : List RunEvent) (thrown : Option String) :
    List SEvent × Except String String :=
  let p := processEvents initResponderState evs
  match thrown with
  | none => (p.2, Except.ok (jsTrim p.1.finalText))
  | some msg => (p.2 ++ errorEvents msg, Except.error msg)

/-! ### Request handlers (server.ts lines 459-556 and 559-616)

Both chat endpoints are modelled as pure functions of the conversation map
and the request fields.  `enhanceSystemPromptWithDateTime` reads the clock
and the credential store, so its output is abstracted as the `preamble`
parameter; the new turn timestamp is the `ts` parameter.  The outcome
records the HTTP status, the updated map, whether the model was invoked,
the context string rendered at server.ts line 502 / 580, and the final
prompt passed to the agent. -/

/-- `resolveChatId` (server.ts lines 113-117):
`String(header || chatId || conversationId || "default")`. -/
def resolveChatId (header chatId conversationId : Option String) : String :=
  jsOr header (jsOr chatId (jsOr conversationId "default"))

/-- Outcome of one request against a chat endpoint. -/
structure ChatOutcome where
  status : Nat
  convs : List (String × ConversationState)
  agentCalled : Bool
  conversationContext : Option String
  finalMessage : Option String
deriving DecidableEq, Repr

/-- `getConversationState` (server.ts lines 119-126): the state under the id,
or a fresh empty one. -/
def getConversationState (convs : List (String × ConversationState)) (chatId : String) :
    ConversationState :=
  (alistGet convs chatId).getD emptyConversationState

/-- The map after `getConversationState` registered the id when absent. -/
def registerConversation (convs : List (String × ConversationState)) (chatId : String) :
    List (String × ConversationState) :=
  match alistGet convs chatId with
  | some _ => convs
  | none => alistSet convs chatId emptyConversationState

/-- The uploaded-file block appended to the prompt when `fileSummaries` is a
non-empty array (server.ts lines 514-518): `"\n- " + fileSummaries.join("\n- ")`
after the header. -/
def fileSummariesBlock (fs : List String) : String :=
  "\n\nUploaded Files (summaries only):\n- " ++ String.intercalate "\n- " fs

/-- Shared body of the two chat endpoints after validation: render the
context from the PRE-append state (server.ts lines 502 / 580), extend the
system prompt with it and with the file summaries, append the user turn
(line 521 / 593), run the synchronous prefix of `maybeSummarizeAsync`
(line 523 / 594, which executes up to its first await before the endpoint
continues), and build the final prompt (line 525 / 596).  `extraFileNote`
is the extra tool note the buffered endpoint appends to the file block. -/
def chatCommon (preamble : String) (convs : List (String × ConversationState))
    (header bodyChatId bodyConversationId : Option String) (msg : String)
    (fileSummaries : Option (List String)) (extraFileNote : String) (ts : String) :
    ChatOutcome :=
  let chatId := resolveChatId header bodyChatId bodyConversationId
  let state := getConversationState convs chatId
  let convs1 := registerConversation convs chatId
  let conversationContext := buildConversationContext state 6
  let enhanced := preamble
  let enhanced :=
    if conversationContext.isEmpty then enhanced
    else enhanced ++ "\n\nConversation Context:\n\n" ++ conversationContext
  let enhanced :=
    match fileSummaries with
    | some fs => if 0 < fs.length then enhanced ++ fileSummariesBlock fs ++ extraFileNote
                 else enhanced
    | none => enhanced
  let stateAfter := addTurn state Role.user msg ts
  let convs2 := alistSet convs1 chatId stateAfter
  let convs3 :=
    match maybeSummarizeBegin stateAfter with
    | some p => alistSet convs2 chatId p.1
    | none => convs2
  { status := 200, convs := convs3, agentCalled := true,
    conversationContext := some conversationContext,
    finalMessage := some (enhanced ++ "\n\n" ++ msg) }

/-- POST /api/chat/stream (server.ts lines 459-556): reject a falsy
`message` with 400 before any conversation state is touched (lines
463-465), otherwise run the shared body. -/
def chatStreamRequest (preamble : String) (convs : List (String × ConversationState))
    (header bodyChatId bodyConversationId : Option String) (message : Option String)
    (fileSummaries : Option (List String)) (ts : String) : ChatOutcome :=
  if jsFalsyStr message then
    { status := 400, convs := convs, agentCalled := false,
      conversationContext := none, finalMessage := none }
  else
    chatCommon preamble convs header bodyChatId bodyConversationId
      (message.getD "") fileSummaries "" ts

/-- POST /api/chat (server.ts lines 559-616): same validation; the file
block additionally advertises the local file tools (line 589). -/
def chatRequest (preamble : String) (convs : List (String × ConversationState))
    (header bodyChatId bodyConversationId : Option String) (message : Option String)
    (fileSummaries : Option (List String)) (ts : String) : ChatOutcome :=
  if jsFalsyStr message then
    { status := 400, convs := convs, agentCalled := false,
      conversationContext := none, finalMessage := none }
  else
    chatCommon preamble convs header bodyChatId bodyConversationId
      (message.getD "") fileSummaries
      "\n\nYou have tools: arkangel_list_files, arkangel_read_file. Use them to inspect files on demand instead of relying on summaries."
      ts

/-! ### Theorems -/

/-- C6: for a fresh conversation, appending the user turn "Hello" and then
the assistant turn "Hi there" and rendering with maxRecent = 6 yields a
single Recent Messages block whose lines are exactly `User: Hello` then
`Assistant: Hi there`, roles capitalized, with no Summary block; and
rendering a freshly created empty state yields the empty string. -/
theorem c6_round_trip_and_empty_render (ts1 ts2 : String) :
    buildConversationContext
        (addTurn (addTurn emptyConversationState Role.user "Hello" ts1)
          Role.assistant "Hi there" ts2) 6
      = "Recent Messages (up to last 6):\nUser: Hello\nAssistant: Hi there"
    ∧ buildConversationContext emptyConversationState 6 = "" := by
  exact ⟨rfl, rfl⟩

/-- C10: a request whose `message` field is the empty string is rejected
exactly like an absent `message` on both chat endpoints: the outcome is
identical, the response status is 400, the conversation map is returned
untouched (no state created or mutated), and the agent is never invoked. -/
theorem c10_empty_message_rejected (preamble : String)
    (convs : List (String × ConversationState))
    (header bodyChatId bodyConversationId : Option String)
    (fs : Option (List String)) (ts : String) :
    (chatStreamRequest preamble convs header bodyChatId bodyConversationId (some "") fs ts
        = chatStreamRequest preamble convs header bodyChatId bodyConversationId none fs ts)
    ∧ (chatStreamRequest preamble convs header bodyChatId bodyConversationId (some "") fs ts).status = 400
    ∧ (chatStreamRequest preamble convs header bodyChatId bodyConversationId (some "") fs ts).convs = convs
    ∧ (chatStreamRequest preamble convs header bodyChatId bodyConversationId (some "") fs ts).agentCalled = false
    ∧ (chatRequest preamble convs header bodyChatId bodyConversationId (some "") fs ts
        = chatRequest preamble convs header bodyChatId bodyConversationId none fs ts)
    ∧ (chatRequest preamble convs header bodyChatId bodyConversationId (some "") fs ts).status = 400
    ∧ (chatRequest preamble convs header bodyChatId bodyConversationId (some "") fs ts).convs = convs
    ∧ (chatRequest preamble convs header bodyChatId bodyConversationId (some "") fs ts).agentCalled = false := by
  exact ⟨rfl, rfl, rfl, rfl, rfl, rfl, rfl, rfl⟩

/-- C9: a tool-end event whose tool has no recorded start is handled
totally: the pop yields no value, the start-time map is left unchanged,
the duration is omitted, and a `tool_end` event carrying the output payload
is still emitted, built by the same constructor as a matched one. -/
theorem c9_unmatched_tool_end (st : ResponderState) (tool : String)
    (output : Option String) (now : Int)
    (h : (alistGet st.toolStartTimes (resolveToolName (some tool) none)).getD [] = []) :
    stepEvent st (RunEvent.onToolEnd (some tool) none output now)
      = (st, [SEvent.toolEndEv (resolveToolName (some tool) none) output none]) := by
  simp only [stepEvent, h, List.getLast?_nil]
  rfl

/-- Witness for C9 at a concrete input: fresh responder state, tool
"calendar". -/
theorem c9_unmatched_tool_end_witness :
    ((alistGet initResponderState.toolStartTimes (resolveToolName (some "calendar") none)).getD [] = [])
    ∧ stepEvent initResponderState (RunEvent.onToolEnd (some "calendar") none none 42)
        = (initResponderState, [SEvent.toolEndEv (resolveToolName (some "calendar") none) none none]) :=
  ⟨by decide, c9_unmatched_tool_end initResponderState "calendar" none 42 (by decide)⟩

/-- C8: when the underlying run throws an error whose message contains
"OAuth credentials not found", the responder emits an `oauth_required`
event carrying a provider tag and a reauthorization hint URL strictly
before the generic `error` event; and in every failure case, classified or
not, the error is re-raised to the caller after the events are emitted. -/
theorem c8_oauth_classification (evs : List RunEvent) (msg : String)
    (h : strIncludes msg "OAuth credentials not found" = true) :
    ((runResponder evs (some msg)).1
        = (processEvents initResponderState evs).2
          ++ [SEvent.oauthRequiredEv "google_calendar"
                "Google Calendar OAuth is required to use this tool."
                "https://console.cloud.google.com/apis/credentials",
              SEvent.errorEv "Error during processing" msg])
    ∧ (runResponder evs (some msg)).2 = Except.error msg
    ∧ (∀ (evs2 : List RunEvent) (msg2 : String),
        (runResponder evs2 (some msg2)).2 = Except.error msg2) := by
  have hoauth : isGoogleCalendarOAuthError msg = true := by
    simp [isGoogleCalendarOAuthError, h]
  refine ⟨?_, rfl, fun evs2 msg2 => rfl⟩
  simp [runResponder, errorEvents, hoauth]

/-- Witness for C8 at a concrete input: an empty event sequence and the
literal OAuth error message. -/
theorem c8_oauth_classification_witness :
    (strIncludes "OAuth credentials not found" "OAuth credentials not found" = true)
    ∧ (((runResponder [] (some "OAuth credentials not found")).1
        = (processEvents initResponderState []).2
          ++ [SEvent.oauthRequiredEv "google_calendar"
                "Google Calendar OAuth is required to use this tool."
                "https://console.cloud.google.com/apis/credentials",
              SEvent.errorEv "Error during processing" "OAuth credentials not found"])
      ∧ (runResponder [] (some "OAuth credentials not found")).2
          = Except.error "OAuth credentials not found"
      ∧ (∀ (evs2 : List RunEvent) (msg2 : String),
          (runResponder evs2 (some msg2)).2 = Except.error msg2)) :=
  ⟨by decide, c8_oauth_classification [] "OAuth credentials not found" (by decide)⟩

/-- Inversion of a successful begin phase: the returned state only sets the
`summarizing` flag, `olderTurns` is the captured prefix, and the guard
implies the flag was clear and there was something to summarize. -/
theorem maybeSummarizeBegin_inv {s0 s1 : ConversationState} {older : List ConversationTurn}
    (h : maybeSummarizeBegin s0 = some (s1, older)) :
    s1 = { s0 with summarizing := true }
    ∧ older = s0.turns.take (s0.turns.length - 6)
    ∧ s0.summarizing = false
    ∧ older.length ≠ 0 := by
  simp only [maybeSummarizeBegin] at h
  split at h
  · exact absurd h (by simp)
  · rename_i hc
    simp only [Bool.or_eq_true, beq_iff_eq, not_or, Bool.not_eq_true] at hc
    simp only [Option.some.injEq, Prod.mk.injEq] at h
    obtain ⟨hs, ho⟩ := h
    exact ⟨hs.symm, ho.symm, hc.2, by rw [← ho]; exact hc.1⟩

/-- C2: at most one background summarization per conversation id is in
flight: once the begin phase of one invocation has run, the state carries
`summarizing = true`, and a second invocation of the begin phase — even
after further turns were appended — returns `none`, the early return that
happens before any mutation and before the auxiliary-model call, so only
the first invocation reaches the model. -/
theorem c2_single_flight (s0 s1 : ConversationState)
    (older interleaved : List ConversationTurn)
    (h : maybeSummarizeBegin s0 = some (s1, older)) :
    s1.summarizing = true
    ∧ maybeSummarizeBegin { s1 with turns := s1.turns ++ interleaved } = none := by
  obtain ⟨hs1, -, -, -⟩ := maybeSummarizeBegin_inv h
  subst hs1
  exact ⟨rfl, by simp [maybeSummarizeBegin]⟩

/-- Witness for C2 at a concrete input: a 7-turn conversation whose first
invocation captures one older turn; a later turn is appended before the
second invocation. -/
theorem c2_single_flight_witness :
    (maybeSummarizeBegin
        { turns := [⟨Role.user, "u1", "1"⟩, ⟨Role.assistant, "v1", "2"⟩, ⟨Role.user, "u2", "3"⟩,
                    ⟨Role.assistant, "v2", "4"⟩, ⟨Role.user, "u3", "5"⟩, ⟨Role.assistant, "v3", "6"⟩,
                    ⟨Role.user, "u4", "7"⟩],
          summary := "", summarizing := false, lastSummaryAt := none }
      = some ({ turns := [⟨Role.user, "u1", "1"⟩, ⟨Role.assistant, "v1", "2"⟩, ⟨Role.user, "u2", "3"⟩,
                          ⟨Role.assistant, "v2", "4"⟩, ⟨Role.user, "u3", "5"⟩, ⟨Role.assistant, "v3", "6"⟩,
                          ⟨Role.user, "u4", "7"⟩],
                summary := "", summarizing := true, lastSummaryAt := none },
              [⟨Role.user, "u1", "1"⟩]))
    ∧ (({ turns := [⟨Role.user, "u1", "1"⟩, ⟨Role.assistant, "v1", "2"⟩, ⟨Role.user, "u2", "3"⟩,
                    ⟨Role.assistant, "v2", "4"⟩, ⟨Role.user, "u3", "5"⟩, ⟨Role.assistant, "v3", "6"⟩,
                    ⟨Role.user, "u4", "7"⟩],
          summary := "", summarizing := true, lastSummaryAt := none } : ConversationState).summarizing = true
      ∧ maybeSummarizeBegin
          { ({ turns := [⟨Role.user, "u1", "1"⟩, ⟨Role.assistant, "v1", "2"⟩, ⟨Role.user, "u2", "3"⟩,
                         ⟨Role.assistant, "v2", "4"⟩, ⟨Role.user, "u3", "5"⟩, ⟨Role.assistant, "v3", "6"⟩,
                         ⟨Role.user, "u4", "7"⟩],
               summary := "", summarizing := true, lastSummaryAt := none } : ConversationState) with
            turns := ({ turns := [⟨Role.user, "u1", "1"⟩, ⟨Role.assistant, "v1", "2"⟩, ⟨Role.user, "u2", "3"⟩,
                                  ⟨Role.assistant, "v2", "4"⟩, ⟨Role.user, "u3", "5"⟩, ⟨Role.assistant, "v3", "6"⟩,
                                  ⟨Role.user, "u4", "7"⟩],
                        summary := "", summarizing := true, lastSummaryAt := none } : ConversationState).turns
                     ++ [⟨Role.user, "u5", "8"⟩] } = none) :=
  ⟨by decide,
   c2_single_flight
     { turns := [⟨Role.user, "u1", "1"⟩, ⟨Role.assistant, "v1", "2"⟩, ⟨Role.user, "u2", "3"⟩,
                 ⟨Role.assistant, "v2", "4"⟩, ⟨Role.user, "u3", "5"⟩, ⟨Role.assistant, "v3", "6"⟩,
                 ⟨Role.user, "u4", "7"⟩],
       summary := "", summarizing := false, lastSummaryAt := none }
     { turns := [⟨Role.user, "u1", "1"⟩, ⟨Role.assistant, "v1", "2"⟩, ⟨Role.user, "u2", "3"⟩,
                 ⟨Role.assistant, "v2", "4"⟩, ⟨Role.user, "u3", "5"⟩, ⟨Role.assistant, "v3", "6"⟩,
                 ⟨Role.user, "u4", "7"⟩],
       summary := "", summarizing := true, lastSummaryAt := none }
     [⟨Role.user, "u1", "1"⟩] [⟨Role.user, "u5", "8"⟩] (by decide)⟩

/-- C4: when the auxiliary call throws, the catch block only logs and the
`finally` clears the flag, so (with no interleaved foreground appends) the
turns, summary and even `lastSummaryAt` after the attempt equal their
values immediately before the attempt began, and `summarizing` is false. -/
theorem c4_failed_compaction_noop (s0 s1 : ConversationState)
    (older : List ConversationTurn)
    (h : maybeSummarizeBegin s0 = some (s1, older)) :
    (maybeSummarizeFail s1).turns = s0.turns
    ∧ (maybeSummarizeFail s1).summary = s0.summary
    ∧ (maybeSummarizeFail s1).lastSummaryAt = s0.lastSummaryAt
    ∧ (maybeSummarizeFail s1).summarizing = false := by
  obtain ⟨hs1, -, -, -⟩ := maybeSummarizeBegin_inv h
  subst hs1
  exact ⟨rfl, rfl, rfl, rfl⟩

/-- Witness for C4 at a concrete input: a 7-turn conversation whose attempt
fails. -/
theorem c4_failed_compaction_noop_witness :
    (maybeSummarizeBegin
        { turns := [⟨Role.user, "w1", "1"⟩, ⟨Role.assistant, "x1", "2"⟩, ⟨Role.user, "w2", "3"⟩,
                    ⟨Role.assistant, "x2", "4"⟩, ⟨Role.user, "w3", "5"⟩, ⟨Role.assistant, "x3", "6"⟩,
                    ⟨Role.user, "w4", "7"⟩],
          summary := "old", summarizing := false, lastSummaryAt := some 1 }
      = some ({ turns := [⟨Role.user, "w1", "1"⟩, ⟨Role.assistant, "x1", "2"⟩, ⟨Role.user, "w2", "3"⟩,
                          ⟨Role.assistant, "x2", "4"⟩, ⟨Role.user, "w3", "5"⟩, ⟨Role.assistant, "x3", "6"⟩,
                          ⟨Role.user, "w4", "7"⟩],
                summary := "old", summarizing := true, lastSummaryAt := some 1 },
              [⟨Role.user, "w1", "1"⟩]))
    ∧ ((maybeSummarizeFail
          { turns := [⟨Role.user, "w1", "1"⟩, ⟨Role.assistant, "x1", "2"⟩, ⟨Role.user, "w2", "3"⟩,
                      ⟨Role.assistant, "x2", "4"⟩, ⟨Role.user, "w3", "5"⟩, ⟨Role.assistant, "x3", "6"⟩,
                      ⟨Role.user, "w4", "7"⟩],
            summary := "old", summarizing := true, lastSummaryAt := some 1 }).turns
        = ({ turns := [⟨Role.user, "w1", "1"⟩, ⟨Role.assistant, "x1", "2"⟩, ⟨Role.user, "w2", "3"⟩,
                       ⟨Role.assistant, "x2", "4"⟩, ⟨Role.user, "w3", "5"⟩, ⟨Role.assistant, "x3", "6"⟩,
                       ⟨Role.user, "w4", "7"⟩],
             summary := "old", summarizing := false, lastSummaryAt := some 1 } : ConversationState).turns
      ∧ (maybeSummarizeFail
          { turns := [⟨Role.user, "w1", "1"⟩, ⟨Role.assistant, "x1", "2"⟩, ⟨Role.user, "w2", "3"⟩,
                      ⟨Role.assistant, "x2", "4"⟩, ⟨Role.user, "w3", "5"⟩, ⟨Role.assistant, "x3", "6"⟩,
                      ⟨Role.user, "w4", "7"⟩],
            summary := "old", summarizing := true, lastSummaryAt := some 1 }).summary = "old"
      ∧ (maybeSummarizeFail
          { turns := [⟨Role.user, "w1", "1"⟩, ⟨Role.assistant, "x1", "2"⟩, ⟨Role.user, "w2", "3"⟩,
                      ⟨Role.assistant, "x2", "4"⟩, ⟨Role.user, "w3", "5"⟩, ⟨Role.assistant, "x3", "6"⟩,
                      ⟨Role.user, "w4", "7"⟩],
            summary := "old", summarizing := true, lastSummaryAt := some 1 }).lastSummaryAt = some 1
      ∧ (maybeSummarizeFail
          { turns := [⟨Role.user, "w1", "1"⟩, ⟨Role.assistant, "x1", "2"⟩, ⟨Role.user, "w2", "3"⟩,
                      ⟨Role.assistant, "x2", "4"⟩, ⟨Role.user, "w3", "5"⟩, ⟨Role.assistant, "x3", "6"⟩,
                      ⟨Role.user, "w4", "7"⟩],
            summary := "old", summarizing := true, lastSummaryAt := some 1 }).summarizing = false) := by
  refine ⟨by decide, ?_⟩
  have := c4_failed_compaction_noop
    { turns := [⟨Role.user, "w1", "1"⟩, ⟨Role.assistant, "x1", "2"⟩, ⟨Role.user, "w2", "3"⟩,
                ⟨Role.assistant, "x2", "4"⟩, ⟨Role.user, "w3", "5"⟩, ⟨Role.assistant, "x3", "6"⟩,
                ⟨Role.user, "w4", "7"⟩],
      summary := "old", summarizing := false, lastSummaryAt := some 1 }
    { turns := [⟨Role.user, "w1", "1"⟩, ⟨Role.assistant, "x1", "2"⟩, ⟨Role.user, "w2", "3"⟩,
                ⟨Role.assistant, "x2", "4"⟩, ⟨Role.user, "w3", "5"⟩, ⟨Role.assistant, "x3", "6"⟩,
                ⟨Role.user, "w4", "7"⟩],
      summary := "old", summarizing := true, lastSummaryAt := some 1 }
    [⟨Role.user, "w1", "1"⟩] (by decide)
  exact ⟨this.1, this.2.1, this.2.2.1, this.2.2.2⟩

/-- C7: tool start times are tracked per tool name as a stack, so for the
overlapping sequence tool-start, tool-start, tool-end, tool-end on the same
tool "calendar" with non-decreasing clock readings, each tool-end pops a
start recorded during this turn (the second start for the first end, the
first start for the second end), exactly one `tool_end` event is emitted
per end, both computed durations are non-negative, and the stack is empty
afterwards — no tool-end is left unmatched. -/
theorem c7_tool_lifecycle_pairing (t1 t2 t3 t4 : Int)
    (h12 : t1 ≤ t2) (h23 : t2 ≤ t3) (h34 : t3 ≤ t4) :
    (processEvents initResponderState
        [RunEvent.onToolStart (some "calendar") none none t1,
         RunEvent.onToolStart (some "calendar") none none t2,
         RunEvent.onToolEnd (some "calendar") none none t3,
         RunEvent.onToolEnd (some "calendar") none none t4]).2
      = [SEvent.toolStartEv "calendar" none, SEvent.toolStartEv "calendar" none,
         SEvent.toolEndEv "calendar" none (some (t3 - t2)),
         SEvent.toolEndEv "calendar" none (some (t4 - t1))]
    ∧ 0 ≤ t3 - t2 ∧ 0 ≤ t4 - t1
    ∧ alistGet (processEvents initResponderState
        [RunEvent.onToolStart (some "calendar") none none t1,
         RunEvent.onToolStart (some "calendar") none none t2,
         RunEvent.onToolEnd (some "calendar") none none t3,
         RunEvent.onToolEnd (some "calendar") none none t4]).1.toolStartTimes "calendar"
      = some [] := by
  refine ⟨rfl, by omega, by omega, rfl⟩

/-- Witness for C7 at concrete clock readings 0 ≤ 1 ≤ 2 ≤ 3. -/
theorem c7_tool_lifecycle_pairing_witness :
    ((0 : Int) ≤ 1 ∧ (1 : Int) ≤ 2 ∧ (2 : Int) ≤ 3)
    ∧ ((processEvents initResponderState
          [RunEvent.onToolStart (some "calendar") none none 0,
           RunEvent.onToolStart (some "calendar") none none 1,
           RunEvent.onToolEnd (some "calendar") none none 2,
           RunEvent.onToolEnd (some "calendar") none none 3]).2
        = [SEvent.toolStartEv "calendar" none, SEvent.toolStartEv "calendar" none,
           SEvent.toolEndEv "calendar" none (some ((2 : Int) - 1)),
           SEvent.toolEndEv "calendar" none (some ((3 : Int) - 0))]
      ∧ (0 : Int) ≤ 2 - 1 ∧ (0 : Int) ≤ 3 - 0
      ∧ alistGet (processEvents initResponderState
          [RunEvent.onToolStart (some "calendar") none none 0,
           RunEvent.onToolStart (some "calendar") none none 1,
           RunEvent.onToolEnd (some "calendar") none none 2,
           RunEvent.onToolEnd (some "calendar") none none 3]).1.toolStartTimes "calendar"
        = some []) :=
  ⟨⟨by decide, by decide, by decide⟩,
   c7_tool_lifecycle_pairing 0 1 2 3 (by decide) (by decide) (by decide)⟩

/-- C5: on both chat endpoints the conversation context injected into the
prompt is rendered from the state as it exists BEFORE the new user turn is
appended; consequently the turn recorded for the current request (whose
timestamp is fresh, i.e. differs from every existing turn timestamp) is
not among the turns the context renders, and the current message appears in
the final prompt exactly as the literal trailing message after the
context-bearing system prompt. -/
theorem c5_context_pre_append (preamble : String)
    (convs : List (String × ConversationState))
    (header bodyChatId bodyConversationId : Option String) (m : String)
    (fs : Option (List String)) (ts : String)
    (hm : m.isEmpty = false)
    (hfresh : ∀ t ∈ (getConversationState convs
        (resolveChatId header bodyChatId bodyConversationId)).turns, t.timestamp ≠ ts) :
    ((chatStreamRequest preamble convs header bodyChatId bodyConversationId (some m) fs ts).conversationContext
        = some (buildConversationContext
            (getConversationState convs (resolveChatId header bodyChatId bodyConversationId)) 6))
    ∧ ((chatRequest preamble convs header bodyChatId bodyConversationId (some m) fs ts).conversationContext
        = some (buildConversationContext
            (getConversationState convs (resolveChatId header bodyChatId bodyConversationId)) 6))
    ∧ ({ role := Role.user, content := m, timestamp := ts } : ConversationTurn) ∉
        (getConversationState convs (resolveChatId header bodyChatId bodyConversationId)).turns.drop
          ((getConversationState convs (resolveChatId header bodyChatId bodyConversationId)).turns.length - 6)
    ∧ (∃ E, (chatStreamRequest preamble convs header bodyChatId bodyConversationId (some m) fs ts).finalMessage
          = some (E ++ "\n\n" ++ m))
    ∧ (∃ E, (chatRequest preamble convs header bodyChatId bodyConversationId (some m) fs ts).finalMessage
          = some (E ++ "\n\n" ++ m)) := by
  have hfalsy : jsFalsyStr (some m) = false := hm
  refine ⟨?_, ?_, ?_, ?_, ?_⟩
  · simp [chatStreamRequest, hfalsy, chatCommon]
  · simp [chatRequest, hfalsy, chatCommon]
  · intro hmem
    exact hfresh _ (List.mem_of_mem_drop hmem) rfl
  · simp only [chatStreamRequest, hfalsy, Bool.false_eq_true, if_false, chatCommon,
      Option.getD_some]
    exact ⟨_, rfl⟩
  · simp only [chatRequest, hfalsy, Bool.false_eq_true, if_false, chatCommon,
      Option.getD_some]
    exact ⟨_, rfl⟩

/-- Witness for C5 at a concrete input: an empty conversation map, message
"Hello", fresh timestamp. -/
theorem c5_context_pre_append_witness :
    (("Hello" : String).isEmpty = false)
    ∧ (∀ t ∈ (getConversationState [] (resolveChatId none none none)).turns,
        t.timestamp ≠ "2024-01-01T00:00:00.000Z")
    ∧ (((chatStreamRequest "P" [] none none none (some "Hello") none "2024-01-01T00:00:00.000Z").conversationContext
        = some (buildConversationContext (getConversationState [] (resolveChatId none none none)) 6))
      ∧ ((chatRequest "P" [] none none none (some "Hello") none "2024-01-01T00:00:00.000Z").conversationContext
        = some (buildConversationContext (getConversationState [] (resolveChatId none none none)) 6))
      ∧ ({ role := Role.user, content := "Hello", timestamp := "2024-01-01T00:00:00.000Z" } : ConversationTurn) ∉
          (getConversationState [] (resolveChatId none none none)).turns.drop
            ((getConversationState [] (resolveChatId none none none)).turns.length - 6)
      ∧ (∃ E, (chatStreamRequest "P" [] none none none (some "Hello") none "2024-01-01T00:00:00.000Z").finalMessage
            = some (E ++ "\n\n" ++ "Hello"))
      ∧ (∃ E, (chatRequest "P" [] none none none (some "Hello") none "2024-01-01T00:00:00.000Z").finalMessage
            = some (E ++ "\n\n" ++ "Hello"))) :=
  ⟨by decide, by intro t ht; exact absurd ht (List.not_mem_nil t),
   c5_context_pre_append "P" [] none none none "Hello" none "2024-01-01T00:00:00.000Z"
     (by decide) (by intro t ht; exact absurd ht (List.not_mem_nil t))⟩

/-- C1 counterexample: the claim fails when a turn is appended while the
auxiliary call is in flight.  A 7-turn conversation starts an attempt:
`olderTurns` = [turn a] and the excluded window of step 2 is [b..g].  One
turn h is appended mid-flight; on success the code truncates to the last 6
turns of the CURRENT list, retaining [c..h] — not the window [b..g]
excluded at step 2 — so turn b, present at the start of the attempt, is
neither retained nor part of the summarized `olderTurns`: it is dropped. -/
theorem c1_counterexample :
    maybeSummarizeSuccess
        { turns := [⟨Role.user, "a", "1"⟩, ⟨Role.assistant, "b", "2"⟩, ⟨Role.user, "c", "3"⟩,
                    ⟨Role.assistant, "d", "4"⟩, ⟨Role.user, "e", "5"⟩, ⟨Role.assistant, "f", "6"⟩,
                    ⟨Role.user, "g", "7"⟩],
          summary := "", summarizing := false, lastSummaryAt := none }
        [⟨Role.user, "h", "8"⟩] { content := ChunkContent.str "S", text := none } 9
      = some { turns := [⟨Role.user, "c", "3"⟩, ⟨Role.assistant, "d", "4"⟩, ⟨Role.user, "e", "5"⟩,
                         ⟨Role.assistant, "f", "6"⟩, ⟨Role.user, "g", "7"⟩, ⟨Role.user, "h", "8"⟩],
               summary := "S", summarizing := false, lastSummaryAt := some 9 }
    ∧ maybeSummarizeBegin
        { turns := [⟨Role.user, "a", "1"⟩, ⟨Role.assistant, "b", "2"⟩, ⟨Role.user, "c", "3"⟩,
                    ⟨Role.assistant, "d", "4"⟩, ⟨Role.user, "e", "5"⟩, ⟨Role.assistant, "f", "6"⟩,
                    ⟨Role.user, "g", "7"⟩],
          summary := "", summarizing := false, lastSummaryAt := none }
      = some ({ turns := [⟨Role.user, "a", "1"⟩, ⟨Role.assistant, "b", "2"⟩, ⟨Role.user, "c", "3"⟩,
                          ⟨Role.assistant, "d", "4"⟩, ⟨Role.user, "e", "5"⟩, ⟨Role.assistant, "f", "6"⟩,
                          ⟨Role.user, "g", "7"⟩],
                summary := "", summarizing := true, lastSummaryAt := none },
              [⟨Role.user, "a", "1"⟩])
    ∧ ([⟨Role.user, "c", "3"⟩, ⟨Role.assistant, "d", "4"⟩, ⟨Role.user, "e", "5"⟩,
        ⟨Role.assistant, "f", "6"⟩, ⟨Role.user, "g", "7"⟩, ⟨Role.user, "h", "8"⟩]
          : List ConversationTurn)
        ≠ [⟨Role.assistant, "b", "2"⟩, ⟨Role.user, "c", "3"⟩, ⟨Role.assistant, "d", "4"⟩,
           ⟨Role.user, "e", "5"⟩, ⟨Role.assistant, "f", "6"⟩, ⟨Role.user, "g", "7"⟩]
    ∧ (⟨Role.assistant, "b", "2"⟩ : ConversationTurn) ∉
        ([⟨Role.user, "c", "3"⟩, ⟨Role.assistant, "d", "4"⟩, ⟨Role.user, "e", "5"⟩,
          ⟨Role.assistant, "f", "6"⟩, ⟨Role.user, "g", "7"⟩, ⟨Role.user, "h", "8"⟩]
            : List ConversationTurn)
    ∧ (⟨Role.assistant, "b", "2"⟩ : ConversationTurn) ∉
        ([⟨Role.user, "a", "1"⟩] : List ConversationTurn) := by
  decide

/-- C1 amended: when no turns are appended while the auxiliary call is in
flight, a successful attempt retains exactly the last-maxRecent window of
the turns present when the attempt began — the same turns that were
excluded from `olderTurns` in step 2 — and `olderTurns` followed by the
retained turns reconstitutes every turn present at the start, so nothing is
dropped.  (With interleaved appends the code recomputes the window at
completion time and can drop turns, as the counterexample shows.) -/
theorem c1_retention_without_interleaving (s0 s1 : ConversationState)
    (older : List ConversationTurn) (aiMsg : AiMsg) (now : Nat)
    (h : maybeSummarizeBegin s0 = some (s1, older)) :
    maybeSummarizeSuccess s0 [] aiMsg now
      = some (maybeSummarizeComplete s1 (extractSummaryText aiMsg) now)
    ∧ (maybeSummarizeComplete s1 (extractSummaryText aiMsg) now).turns
        = s0.turns.drop (s0.turns.length - 6)
    ∧ older ++ (maybeSummarizeComplete s1 (extractSummaryText aiMsg) now).turns = s0.turns := by
  obtain ⟨hs1, holder, -, -⟩ := maybeSummarizeBegin_inv h
  subst hs1
  subst holder
  refine ⟨?_, rfl, ?_⟩
  · simp [maybeSummarizeSuccess, h]
  · exact List.take_append_drop _ _

/-- Witness for the amended C1 at a concrete input: a 7-turn conversation
with no interleaved appends. -/
theorem c1_retention_witness :
    (maybeSummarizeBegin
        { turns := [⟨Role.user, "p1", "1"⟩, ⟨Role.assistant, "p2", "2"⟩, ⟨Role.user, "p3", "3"⟩,
                    ⟨Role.assistant, "p4", "4"⟩, ⟨Role.user, "p5", "5"⟩, ⟨Role.assistant, "p6", "6"⟩,
                    ⟨Role.user, "p7", "7"⟩],
          summary := "", summarizing := false, lastSummaryAt := none }
      = some ({ turns := [⟨Role.user, "p1", "1"⟩, ⟨Role.assistant, "p2", "2"⟩, ⟨Role.user, "p3", "3"⟩,
                          ⟨Role.assistant, "p4", "4"⟩, ⟨Role.user, "p5", "5"⟩, ⟨Role.assistant, "p6", "6"⟩,
                          ⟨Role.user, "p7", "7"⟩],
                summary := "", summarizing := true, lastSummaryAt := none },
              [⟨Role.user, "p1", "1"⟩]))
    ∧ (maybeSummarizeSuccess
          { turns := [⟨Role.user, "p1", "1"⟩, ⟨Role.assistant, "p2", "2"⟩, ⟨Role.user, "p3", "3"⟩,
                      ⟨Role.assistant, "p4", "4"⟩, ⟨Role.user, "p5", "5"⟩, ⟨Role.assistant, "p6", "6"⟩,
                      ⟨Role.user, "p7", "7"⟩],
            summary := "", summarizing := false, lastSummaryAt := none }
          [] { content := ChunkContent.str "S", text := none } 9
        = some (maybeSummarizeComplete
            { turns := [⟨Role.user, "p1", "1"⟩, ⟨Role.assistant, "p2", "2"⟩, ⟨Role.user, "p3", "3"⟩,
                        ⟨Role.assistant, "p4", "4"⟩, ⟨Role.user, "p5", "5"⟩, ⟨Role.assistant, "p6", "6"⟩,
                        ⟨Role.user, "p7", "7"⟩],
              summary := "", summarizing := true, lastSummaryAt := none }
            (extractSummaryText { content := ChunkContent.str "S", text := none }) 9)
      ∧ (maybeSummarizeComplete
            { turns := [⟨Role.user, "p1", "1"⟩, ⟨Role.assistant, "p2", "2"⟩, ⟨Role.user, "p3", "3"⟩,
                        ⟨Role.assistant, "p4", "4"⟩, ⟨Role.user, "p5", "5"⟩, ⟨Role.assistant, "p6", "6"⟩,
                        ⟨Role.user, "p7", "7"⟩],
              summary := "", summarizing := true, lastSummaryAt := none }
            (extractSummaryText { content := ChunkContent.str "S", text := none }) 9).turns
          = ({ turns := [⟨Role.user, "p1", "1"⟩, ⟨Role.assistant, "p2", "2"⟩, ⟨Role.user, "p3", "3"⟩,
                         ⟨Role.assistant, "p4", "4"⟩, ⟨Role.user, "p5", "5"⟩, ⟨Role.assistant, "p6", "6"⟩,
                         ⟨Role.user, "p7", "7"⟩],
               summary := "", summarizing := false, lastSummaryAt := none } : ConversationState).turns.drop
            (({ turns := [⟨Role.user, "p1", "1"⟩, ⟨Role.assistant, "p2", "2"⟩, ⟨Role.user, "p3", "3"⟩,
                          ⟨Role.assistant, "p4", "4"⟩, ⟨Role.user, "p5", "5"⟩, ⟨Role.assistant, "p6", "6"⟩,
                          ⟨Role.user, "p7", "7"⟩],
                summary := "", summarizing := false, lastSummaryAt := none } : ConversationState).turns.length - 6)
      ∧ [⟨Role.user, "p1", "1"⟩]
          ++ (maybeSummarizeComplete
            { turns := [⟨Role.user, "p1", "1"⟩, ⟨Role.assistant, "p2", "2"⟩, ⟨Role.user, "p3", "3"⟩,
                        ⟨Role.assistant, "p4", "4"⟩, ⟨Role.user, "p5", "5"⟩, ⟨Role.assistant, "p6", "6"⟩,
                        ⟨Role.user, "p7", "7"⟩],
              summary := "", summarizing := true, lastSummaryAt := none }
            (extractSummaryText { content := ChunkContent.str "S", text := none }) 9).turns
          = ({ turns := [⟨Role.user, "p1", "1"⟩, ⟨Role.assistant, "p2", "2"⟩, ⟨Role.user, "p3", "3"⟩,
                         ⟨Role.assistant, "p4", "4"⟩, ⟨Role.user, "p5", "5"⟩, ⟨Role.assistant, "p6", "6"⟩,
                         ⟨Role.user, "p7", "7"⟩],
               summary := "", summarizing := false, lastSummaryAt := none } : ConversationState).turns) :=
  ⟨by decide,
   c1_retention_without_interleaving
     { turns := [⟨Role.user, "p1", "1"⟩, ⟨Role.assistant, "p2", "2"⟩, ⟨Role.user, "p3", "3"⟩,
                 ⟨Role.assistant, "p4", "4"⟩, ⟨Role.user, "p5", "5"⟩, ⟨Role.assistant, "p6", "6"⟩,
                 ⟨Role.user, "p7", "7"⟩],
       summary := "", summarizing := false, lastSummaryAt := none }
     { turns := [⟨Role.user, "p1", "1"⟩, ⟨Role.assistant, "p2", "2"⟩, ⟨Role.user, "p3", "3"⟩,
                 ⟨Role.assistant, "p4", "4"⟩, ⟨Role.user, "p5", "5"⟩, ⟨Role.assistant, "p6", "6"⟩,
                 ⟨Role.user, "p7", "7"⟩],
       summary := "", summarizing := true, lastSummaryAt := none }
     [⟨Role.user, "p1", "1"⟩] { content := ChunkContent.str "S", text := none } 9 (by decide)⟩

/-- C3 counterexample: a compaction can succeed (the auxiliary call returns
without throwing and the completion update runs) and still leave an EMPTY
summary.  A 7-turn conversation with no prior summary gets a
whitespace-only reply from the auxiliary model; the trimmed text is empty,
the code falls back to the previous summary — the empty string — so after
the successful compaction `turns` is truncated to 6 but `summary` is "",
contradicting the claim that the summary is then non-empty. -/
theorem c3_counterexample :
    maybeSummarizeSuccess
        { turns := [⟨Role.user, "q1", "1"⟩, ⟨Role.assistant, "q2", "2"⟩, ⟨Role.user, "q3", "3"⟩,
                    ⟨Role.assistant, "q4", "4"⟩, ⟨Role.user, "q5", "5"⟩, ⟨Role.assistant, "q6", "6"⟩,
                    ⟨Role.user, "q7", "7"⟩],
          summary := "", summarizing := false, lastSummaryAt := none }
        [] { content := ChunkContent.str "   ", text := none } 11
      = some { turns := [⟨Role.assistant, "q2", "2"⟩, ⟨Role.user, "q3", "3"⟩,
                         ⟨Role.assistant, "q4", "4"⟩, ⟨Role.user, "q5", "5"⟩,
                         ⟨Role.assistant, "q6", "6"⟩, ⟨Role.user, "q7", "7"⟩],
               summary := "", summarizing := false, lastSummaryAt := some 11 }
    ∧ Option.map ConversationState.summary
        (maybeSummarizeSuccess
          { turns := [⟨Role.user, "q1", "1"⟩, ⟨Role.assistant, "q2", "2"⟩, ⟨Role.user, "q3", "3"⟩,
                      ⟨Role.assistant, "q4", "4"⟩, ⟨Role.user, "q5", "5"⟩, ⟨Role.assistant, "q6", "6"⟩,
                      ⟨Role.user, "q7", "7"⟩],
            summary := "", summarizing := false, lastSummaryAt := none }
          [] { content := ChunkContent.str "   ", text := none } 11)
      = some "" := by
  decide

/-- C3 amended: after a successful compaction (with no interleaved appends)
the number of retained turns is `min maxRecent (previous turn count)` —
equal to maxRecent = 6, or less when fewer existed — and the summary is
non-empty exactly when the trimmed text extracted from the auxiliary reply
is non-empty or the conversation already had a non-empty summary; a
whitespace-only reply over an empty prior summary leaves the summary
empty. -/
theorem c3_compaction_invariant (s0 : ConversationState) (aiMsg : AiMsg) (now : Nat)
    (r : ConversationState)
    (h : maybeSummarizeSuccess s0 [] aiMsg now = some r) :
    r.turns.length = min 6 s0.turns.length
    ∧ (r.summary.isEmpty = true ↔
        ((jsTrim (extractSummaryText aiMsg)).isEmpty = true ∧ s0.summary.isEmpty = true)) := by
  cases hb : maybeSummarizeBegin s0 with
  | none => simp [maybeSummarizeSuccess, hb] at h
  | some p =>
    obtain ⟨s1, older⟩ := p
    obtain ⟨hs1, -, -, -⟩ := maybeSummarizeBegin_inv hb
    subst hs1
    simp only [maybeSummarizeSuccess, hb, List.append_nil, Option.some.injEq] at h
    subst h
    constructor
    · simp only [maybeSummarizeComplete, List.length_drop]
      omega
    · by_cases ht : (jsTrim (extractSummaryText aiMsg)).isEmpty = true
      · simp [maybeSummarizeComplete, ht]
      · simp [maybeSummarizeComplete, ht]

/-- Witness for the amended C3 at a concrete input: a 7-turn conversation
and the auxiliary reply "Sum". -/
theorem c3_compaction_invariant_witness :
    (maybeSummarizeSuccess
        { turns := [⟨Role.user, "r1", "1"⟩, ⟨Role.assistant, "r2", "2"⟩, ⟨Role.user, "r3", "3"⟩,
                    ⟨Role.assistant, "r4", "4"⟩, ⟨Role.user, "r5", "5"⟩, ⟨Role.assistant, "r6", "6"⟩,
                    ⟨Role.user, "r7", "7"⟩],
          summary := "", summarizing := false, lastSummaryAt := none }
        [] { content := ChunkContent.str "Sum", text := none } 3
      = some { turns := [⟨Role.assistant, "r2", "2"⟩, ⟨Role.user, "r3", "3"⟩,
                         ⟨Role.assistant, "r4", "4"⟩, ⟨Role.user, "r5", "5"⟩,
                         ⟨Role.assistant, "r6", "6"⟩, ⟨Role.user, "r7", "7"⟩],
               summary := "Sum", summarizing := false, lastSummaryAt := some 3 })
    ∧ (({ turns := [⟨Role.assistant, "r2", "2"⟩, ⟨Role.user, "r3", "3"⟩,
                    ⟨Role.assistant, "r4", "4"⟩, ⟨Role.user, "r5", "5"⟩,
                    ⟨Role.assistant, "r6", "6"⟩, ⟨Role.user, "r7", "7"⟩],
          summary := "Sum", summarizing := false, lastSummaryAt := some 3 } : ConversationState).turns.length
        = min 6 ({ turns := [⟨Role.user, "r1", "1"⟩, ⟨Role.assistant, "r2", "2"⟩, ⟨Role.user, "r3", "3"⟩,
                             ⟨Role.assistant, "r4", "4"⟩, ⟨Role.user, "r5", "5"⟩, ⟨Role.assistant, "r6", "6"⟩,
                             ⟨Role.user, "r7", "7"⟩],
                   summary := "", summarizing := false, lastSummaryAt := none } : ConversationState).turns.length
      ∧ (({ turns := [⟨Role.assistant, "r2", "2"⟩, ⟨Role.user, "r3", "3"⟩,
                      ⟨Role.assistant, "r4", "4"⟩, ⟨Role.user, "r5", "5"⟩,
                      ⟨Role.assistant, "r6", "6"⟩, ⟨Role.user, "r7", "7"⟩],
            summary := "Sum", summarizing := false, lastSummaryAt := some 3 } : ConversationState).summary.isEmpty = true ↔
          ((jsTrim (extractSummaryText { content := ChunkContent.str "Sum", text := none })).isEmpty = true
            ∧ ({ turns := [⟨Role.user, "r1", "1"⟩, ⟨Role.assistant, "r2", "2"⟩, ⟨Role.user, "r3", "3"⟩,
                           ⟨Role.assistant, "r4", "4"⟩, ⟨Role.user, "r5", "5"⟩, ⟨Role.assistant, "r6", "6"⟩,
                           ⟨Role.user, "r7", "7"⟩],
                 summary := "", summarizing := false, lastSummaryAt := none } : ConversationState).summary.isEmpty = true))) :=
  ⟨by decide,
   c3_compaction_invariant
     { turns := [⟨Role.user, "r1", "1"⟩, ⟨Role.assistant, "r2", "2"⟩, ⟨Role.user, "r3", "3"⟩,
                 ⟨Role.assistant, "r4", "4"⟩, ⟨Role.user, "r5", "5"⟩, ⟨Role.assistant, "r6", "6"⟩,
                 ⟨Role.user, "r7", "7"⟩],
       summary := "", summarizing := false, lastSummaryAt := none }
     { content := ChunkContent.str "Sum", text := none } 3
     { turns := [⟨Role.assistant, "r2", "2"⟩, ⟨Role.user, "r3", "3"⟩,
                 ⟨Role.assistant, "r4", "4"⟩, ⟨Role.user, "r5", "5"⟩,
                 ⟨Role.assistant, "r6", "6"⟩, ⟨Role.user, "r7", "7"⟩],
       summary := "Sum", summarizing := false, lastSummaryAt := some 3 }
     (by decide)⟩

end ArkAngel
